import Mathlib

set_option maxHeartbeats 4000000
set_option maxRecDepth 8000

/-!
Verification of the python-whois library (richardpenman/whois) against its
natural-language specification.  The development shallowly embeds the parts of
`whois/whois.py` and `whois/parser.py` that the claims concern:

* the date normalizer (`cast_date`, `datetime_parse`, `KNOWN_FORMATS`),
  including a faithful model of CPython `datetime.strptime`/`strftime`
  restricted to the directives that occur in the format table;
* the field-extraction pipeline of `WhoisEntry.parse` for a single field;
* the protocol client `NICClient.whois` with the network modelled as an
  oracle, instrumented with a transport-round-trip counter;
* the server directory `NICClient.choose_server` and `findwhois_iana`;
* Python attribute lookup on `WhoisEntry` (`__getattr__`).

All functions are computable so that every statement can be checked on
concrete inputs.
-/

/-! ## Character and string helpers (Python semantics, ASCII range) -/

/-- Lower-case a character, as Python lower-cases ASCII letters. -/
def lc (c : Char) : Char := c.toLower

/-- Python regex whitespace class over ASCII: space, tab, LF, CR, VT, FF. -/
def isWs (c : Char) : Bool :=
  c = ' ' || c = '\t' || c = '\n' || c = '\r' || c = Char.ofNat 11 || c = Char.ofNat 12

/-- Python `str.strip()` over the ASCII whitespace set. -/
def pyStrip (s : String) : String :=
  ⟨((s.data.dropWhile isWs).reverse.dropWhile isWs).reverse⟩

/-- Python `str.isdigit()` restricted to ASCII digits. -/
def pyIsDigit (s : String) : Bool :=
  !s.data.isEmpty && s.data.all Char.isDigit

/-- Python `str.lower()` over ASCII. -/
def pyLower (s : String) : String := ⟨s.data.map lc⟩

/-- Numeric value of an ASCII digit. -/
def dval (c : Char) : Nat := c.toNat - '0'.toNat

/-- `true` iff `c` is an ASCII digit whose value lies in `[lo, hi]`. -/
def digRange (lo hi : Nat) (c : Char) : Bool :=
  c.isDigit && Nat.ble lo (dval c) && Nat.ble (dval c) hi

/-- Decimal digits of `n`. -/
def natStr (n : Nat) : List Char := Nat.toDigits 10 n

/-- Zero-pad to width 2 (strftime numeric fields). -/
def pad2 (n : Nat) : List Char := if n < 10 then '0' :: natStr n else natStr n

/-- Zero-pad to width 4 (strftime `%Y`). -/
def pad4 (n : Nat) : List Char :=
  List.replicate (4 - (natStr n).length) '0' ++ natStr n

/-- Zero-pad to width 6 (strftime `%f`). -/
def pad6 (n : Nat) : List Char :=
  List.replicate (6 - (natStr n).length) '0' ++ natStr n

/-- Does `s` start with `pat` (character-exact)? -/
def startsWithCS : List Char → List Char → Bool
  | [], _ => true
  | _ :: _, [] => false
  | p :: ps, c :: cs => p = c && startsWithCS ps cs

/-- Python `needle in hay` contiguous-substring test. -/
def containsSub : List Char → List Char → Bool
  | needle, [] => needle.isEmpty
  | needle, s@(_ :: tl) => startsWithCS needle s || containsSub needle tl

/-- Python `str.endswith`. -/
def pyEndsWith (s suf : String) : Bool :=
  startsWithCS suf.data.reverse s.data.reverse

/-- Case-insensitive literal match: if `s` starts with `pat` (ignoring ASCII
case), return the rest of `s`. Models matching a literal inside a regex
compiled with `re.IGNORECASE`. -/
def litCI : List Char → List Char → Option (List Char)
  | [], s => some s
  | _ :: _, [] => none
  | p :: ps, c :: cs => if lc p = lc c then litCI ps cs else none

/-! ## The datetime value produced by CPython `datetime.strptime`

`zoff` is the UTC offset in seconds carried by the `tzinfo`, `none` for a
naive datetime. -/

structure PyDateTime where
  year : Nat
  month : Nat
  day : Nat
  hour : Nat
  minute : Nat
  second : Nat
  usec : Nat
  zoff : Option Int
  deriving DecidableEq, Repr

/-- English month abbreviations, as in the C locale used by `strptime`. -/
def monthAbbrs : List String :=
  ["Jan", "Feb", "Mar", "Apr", "May", "Jun",
   "Jul", "Aug", "Sep", "Oct", "Nov", "Dec"]

/-- English full month names. -/
def monthNames : List String :=
  ["January", "February", "March", "April", "May", "June", "July",
   "August", "September", "October", "November", "December"]

/-- English weekday abbreviations indexed the Python way (0 = Monday). -/
def dayAbbrs : List String := ["Mon", "Tue", "Wed", "Thu", "Fri", "Sat", "Sun"]

/-- Timezone names accepted by `strptime`'s `%Z` in this locale (`TZ=UTC`):
`utc`, `gmt` and the local zone name, which is also UTC. -/
def tzNames : List String := ["UTC", "GMT"]

/-! ## strptime: format tokenization

CPython `_strptime` turns the format into a regex: each directive becomes a
fixed sub-regex, runs of whitespace become one `\s+`, every other character a
(case-insensitively matched) literal.  An unknown directive such as `%-d`
raises `ValueError`, which `datetime_parse` treats like a non-match. -/

inductive FTok where
  | lit (c : Char)
  | ws
  | dY | dm | dd | dH | dMin | dS | df | dz | dZ | db | dB | da
  deriving DecidableEq, Repr

/-- Directive table: the directives occurring in `KNOWN_FORMATS`. Any other
directive character makes the whole format invalid (ValueError). -/
def dirTok (c : Char) : Option FTok :=
  if c = 'Y' then some .dY
  else if c = 'm' then some .dm
  else if c = 'd' then some .dd
  else if c = 'H' then some .dH
  else if c = 'M' then some .dMin
  else if c = 'S' then some .dS
  else if c = 'f' then some .df
  else if c = 'z' then some .dz
  else if c = 'Z' then some .dZ
  else if c = 'b' then some .db
  else if c = 'B' then some .dB
  else if c = 'a' then some .da
  else if c = '%' then some (.lit '%')
  else none

/-- Tokenize a strptime format.  The boolean tracks whether the previous
character was whitespace, so that a whitespace run collapses into one `ws`
token, as `_strptime` replaces runs of whitespace by a single `\s+`. -/
def fmtToks : Bool → List Char → Option (List FTok)
  | _, [] => some []
  | _, '%' :: c :: r =>
    match dirTok c with
    | some t => (fmtToks false r).map (t :: ·)
    | none => none
  | _, ['%'] => none
  | prevWs, c :: r =>
    if isWs c then
      if prevWs then fmtToks true r
      else (fmtToks true r).map (.ws :: ·)
    else (fmtToks false r).map (.lit c :: ·)

/-! ## strptime: matching

Each directive's sub-regex is modelled by a list of candidate matches in the
exact order the regex alternation tries them; the overall matcher backtracks
through those candidates.  The numeric alternations below are copied from
CPython `_strptime.TimeRE`. -/

/-- Parse state: the fields collected so far (`None` = directive absent). -/
structure PEnv where
  y : Option Nat := none
  m : Option Nat := none
  d : Option Nat := none
  hh : Option Nat := none
  mm : Option Nat := none
  ss : Option Nat := none
  us : Option Nat := none
  zoff : Option Int := none
  deriving DecidableEq, Repr

/-- `%d` regex `(3[01]|[12]\d|0[1-9]|[1-9])`, candidates in alternation order. -/
def candD : List Char → List (Nat × List Char)
  | a :: b :: r =>
    (if a = '3' && (b = '0' || b = '1') then [(30 + dval b, r)] else []) ++
    (if (a = '1' || a = '2') && b.isDigit then [(10 * dval a + dval b, r)] else []) ++
    (if a = '0' && digRange 1 9 b then [(dval b, r)] else []) ++
    (if digRange 1 9 a then [(dval a, b :: r)] else [])
  | [a] => if digRange 1 9 a then [(dval a, [])] else []
  | [] => []

/-- `%m` regex `(1[0-2]|0[1-9]|[1-9])`. -/
def candMo : List Char → List (Nat × List Char)
  | a :: b :: r =>
    (if a = '1' && digRange 0 2 b then [(10 + dval b, r)] else []) ++
    (if a = '0' && digRange 1 9 b then [(dval b, r)] else []) ++
    (if digRange 1 9 a then [(dval a, b :: r)] else [])
  | [a] => if digRange 1 9 a then [(dval a, [])] else []
  | [] => []

/-- `%H` regex `(2[0-3]|[0-1]\d|\d)`. -/
def candH : List Char → List (Nat × List Char)
  | a :: b :: r =>
    (if a = '2' && digRange 0 3 b then [(20 + dval b, r)] else []) ++
    (if digRange 0 1 a && b.isDigit then [(10 * dval a + dval b, r)] else []) ++
    (if a.isDigit then [(dval a, b :: r)] else [])
  | [a] => if a.isDigit then [(dval a, [])] else []
  | [] => []

/-- `%M` regex `([0-5]\d|\d)`. -/
def candMin : List Char → List (Nat × List Char)
  | a :: b :: r =>
    (if digRange 0 5 a && b.isDigit then [(10 * dval a + dval b, r)] else []) ++
    (if a.isDigit then [(dval a, b :: r)] else [])
  | [a] => if a.isDigit then [(dval a, [])] else []
  | [] => []

/-- `%S` regex `(6[0-1]|[0-5]\d|\d)`. -/
def candS : List Char → List (Nat × List Char)
  | a :: b :: r =>
    (if a = '6' && digRange 0 1 b then [(60 + dval b, r)] else []) ++
    (if digRange 0 5 a && b.isDigit then [(10 * dval a + dval b, r)] else []) ++
    (if a.isDigit then [(dval a, b :: r)] else [])
  | [a] => if a.isDigit then [(dval a, [])] else []
  | [] => []

/-- `%Y` regex: exactly four digits. -/
def candY : List Char → List (Nat × List Char)
  | a :: b :: c :: d :: r =>
    if a.isDigit && b.isDigit && c.isDigit && d.isDigit then
      [(1000 * dval a + 100 * dval b + 10 * dval c + dval d, r)]
    else []
  | _ => []

/-- Value of a digit run, right-padded with zeros to six digits
(CPython pads the `%f` capture on the right before `int`). -/
def fracVal (ds : List Char) : Nat :=
  (ds.foldl (fun acc c => 10 * acc + dval c) 0) * 10 ^ (6 - ds.length)

/-- `%f` regex `(\d{1..6})` (greedy): candidates from longest to shortest. -/
def candF (s : List Char) : List (Nat × List Char) :=
  let run := (s.takeWhile Char.isDigit).take 6
  (List.range run.length).map
    (fun i => (fracVal (run.take (run.length - i)), s.drop (run.length - i)))

/-- Hours/minutes part of `%z` after the sign: two digits, optional colon,
two digits. -/
def zBase : List Char → Option (Nat × Nat × List Char)
  | a :: b :: rest =>
    if a.isDigit && b.isDigit then
      let hh := 10 * dval a + dval b
      match rest with
      | ':' :: c :: d :: r2 =>
        if c.isDigit && d.isDigit then some (hh, 10 * dval c + dval d, r2) else none
      | c :: d :: r2 =>
        if c.isDigit && d.isDigit then some (hh, 10 * dval c + dval d, r2) else none
      | _ => none
    else none
  | _ => none

/-- Optional fractional-seconds tail of `%z` (value ignored by the offset
computation here); candidates longest first. -/
def zFracRests (s : List Char) : List (List Char) :=
  match s with
  | '.' :: r =>
    let run := (r.takeWhile Char.isDigit).take 6
    (List.range run.length).map (fun i => r.drop (run.length - i))
  | _ => []

/-- Optional seconds tail of `%z`: `(:?\d\d(\.\d{1..6})?)?`, greedy, with the
empty match last. Returns (seconds, rest) candidates. -/
def zSecCands (s : List Char) : List (Nat × List Char) :=
  let core : List Char → List (Nat × List Char) := fun t =>
    match t with
    | c :: d :: r =>
      if c.isDigit && d.isDigit then
        let ss := 10 * dval c + dval d
        (zFracRests r).map (fun r2 => (ss, r2)) ++ [(ss, r)]
      else []
    | _ => []
  (match s with
   | ':' :: t => core t
   | _ => core s) ++ [(0, s)]

/-- `%z` regex `([+-]\d\d:?\d\d(:?\d\d(\.\d{1..6})?)?|Z)`; the `Z`
alternative is case-sensitive.  The value is the UTC offset in seconds. -/
def candZ (s : List Char) : List (Int × List Char) :=
  let signForm : List (Int × List Char) :=
    match s with
    | sg :: rest =>
      if sg = '+' || sg = '-' then
        match zBase rest with
        | some (hh, mm, r0) =>
          let base : Int := Int.ofNat (hh * 3600 + mm * 60)
          let sgn : Int := if sg = '-' then -1 else 1
          (zSecCands r0).map (fun p => (sgn * (base + Int.ofNat p.1), p.2))
        | none => []
      else []
    | [] => []
  let zForm : List (Int × List Char) :=
    match s with
    | 'Z' :: r => [(0, r)]
    | _ => []
  signForm ++ zForm

/-- Name-list directives (`%b`, `%B`, `%a`, `%Z`): candidates are the names
that case-insensitively prefix the input, paired with their value. -/
def nameCands (names : List (Nat × String)) (s : List Char) : List (Nat × List Char) :=
  names.filterMap (fun p => (litCI p.2.data s).map (fun r => (p.1, r)))

/-- Month abbreviations with month numbers. -/
def monthAbbrVals : List (Nat × String) :=
  ((List.range monthAbbrs.length).zip monthAbbrs).map (fun p => (p.1 + 1, p.2))

/-- Full month names with month numbers, longest names first (stable on
ties) as CPython sorts the alternation by length, descending. -/
def monthNameVals : List (Nat × String) :=
  [(9, "September"), (2, "February"), (11, "November"), (12, "December"),
   (1, "January"), (10, "October"), (8, "August"), (3, "March"), (4, "April"),
   (6, "June"), (7, "July"), (5, "May")]

/-- Weekday abbreviations (value unused). -/
def dayAbbrVals : List (Nat × String) :=
  ((List.range dayAbbrs.length).zip dayAbbrs).map (fun p => (p.1, p.2))

/-- Timezone names (value unused; `%Z` never sets an offset in CPython). -/
def tzNameVals : List (Nat × String) := tzNames.map (fun n => (0, n))

/-- Candidates for one token on an input: each is a state update plus the
remaining input, in the order the compiled regex would try them. -/
def tokCands : FTok → List Char → List ((PEnv → PEnv) × List Char)
  | .lit c, s =>
    match s with
    | x :: r => if lc x = lc c then [((fun e => e), r)] else []
    | [] => []
  | .ws, s =>
    let k := (s.takeWhile isWs).length
    (List.range k).map (fun i => ((fun e => e), s.drop (k - i)))
  | .dY, s => (candY s).map (fun p => ((fun e => { e with y := some p.1 }), p.2))
  | .dm, s => (candMo s).map (fun p => ((fun e => { e with m := some p.1 }), p.2))
  | .dd, s => (candD s).map (fun p => ((fun e => { e with d := some p.1 }), p.2))
  | .dH, s => (candH s).map (fun p => ((fun e => { e with hh := some p.1 }), p.2))
  | .dMin, s => (candMin s).map (fun p => ((fun e => { e with mm := some p.1 }), p.2))
  | .dS, s => (candS s).map (fun p => ((fun e => { e with ss := some p.1 }), p.2))
  | .df, s => (candF s).map (fun p => ((fun e => { e with us := some p.1 }), p.2))
  | .dz, s => (candZ s).map (fun p => ((fun e => { e with zoff := some p.1 }), p.2))
  | .dZ, s => (nameCands tzNameVals s).map (fun p => ((fun e => e), p.2))
  | .db, s => (nameCands monthAbbrVals s).map (fun p => ((fun e => { e with m := some p.1 }), p.2))
  | .dB, s => (nameCands monthNameVals s).map (fun p => ((fun e => { e with m := some p.1 }), p.2))
  | .da, s => (nameCands dayAbbrVals s).map (fun p => ((fun e => e), p.2))

/-- Try candidates in order, running the continuation on each. -/
def firstSucc : List ((PEnv → PEnv) × List Char) → (List Char → PEnv → Option PEnv) →
    PEnv → Option PEnv
  | [], _, _ => none
  | (f, rest) :: cs, k, e =>
    match k rest (f e) with
    | some r => some r
    | none => firstSucc cs k e

/-- Backtracking matcher for a token list; requires the whole input to be
consumed, as `_strptime` rejects trailing data. -/
def runToks : List FTok → List Char → PEnv → Option PEnv
  | [], s, e => if s.isEmpty then some e else none
  | t :: ts, s, e => firstSucc (tokCands t s) (fun rest e2 => runToks ts rest e2) e

def isLeap (y : Nat) : Bool := (y % 4 == 0 && y % 100 != 0) || y % 400 == 0

def daysInMonth (y m : Nat) : Nat :=
  if m = 2 then (if isLeap y then 29 else 28)
  else if m = 4 ∨ m = 6 ∨ m = 9 ∨ m = 11 then 30
  else 31

/-- Build the datetime from collected fields with strptime's defaults
(1900-01-01 00:00:00), applying the validation the `datetime` constructor
performs (the regex already bounds month, hour and minute). -/
def envToDT (e : PEnv) : Option PyDateTime :=
  let y := e.y.getD 1900
  let m := e.m.getD 1
  let d := e.d.getD 1
  if 1 ≤ y ∧ 1 ≤ d ∧ d ≤ daysInMonth y m ∧ e.ss.getD 0 ≤ 59 then
    some ⟨y, m, d, e.hh.getD 0, e.mm.getD 0, e.ss.getD 0, e.us.getD 0, e.zoff⟩
  else none

/-- Model of `datetime.strptime(s, fmt)`: `none` both for a non-match and for
an invalid format (both raise `ValueError`, which the caller treats alike). -/
def strptime (fmt s : String) : Option PyDateTime :=
  match fmtToks false fmt.data with
  | none => none
  | some ts => (runToks ts s.data {}).bind envToDT

/-! ## strftime (the directives used by the format table) -/

/-- Weekday of a date, 0 = Monday (Python `tm_wday` convention). -/
def pyWeekday (y m d : Nat) : Nat :=
  let tbl : List Nat := [0, 3, 2, 5, 0, 3, 5, 1, 4, 6, 2, 4]
  let y2 := if m < 3 then y - 1 else y
  let s := (y2 + y2 / 4 + y2 / 400 + tbl.getD (m - 1) 0 + d) - y2 / 100
  (s % 7 + 6) % 7

/-- `%z` rendering: empty for a naive datetime, else sign and four digits. -/
def strfZ (zoff : Option Int) : List Char :=
  match zoff with
  | none => []
  | some o =>
    let a := o.natAbs
    (if o < 0 then '-' else '+') :: (pad2 (a / 3600) ++ pad2 (a % 3600 / 60))

/-- `%Z` rendering: empty for naive, `UTC` for the zero offset, and the
`datetime.timezone` name form otherwise. -/
def strfZname (zoff : Option Int) : List Char :=
  match zoff with
  | none => []
  | some 0 => "UTC".data
  | some o =>
    let a := o.natAbs
    "UTC".data ++ (if o < 0 then '-' else '+') ::
      (pad2 (a / 3600) ++ ':' :: pad2 (a % 3600 / 60))

/-- One strftime directive. -/
def strfDir (t : PyDateTime) (c : Char) : List Char :=
  if c = 'd' then pad2 t.day
  else if c = 'm' then pad2 t.month
  else if c = 'Y' then pad4 t.year
  else if c = 'H' then pad2 t.hour
  else if c = 'M' then pad2 t.minute
  else if c = 'S' then pad2 t.second
  else if c = 'f' then pad6 t.usec
  else if c = 'b' then (monthAbbrs.getD (t.month - 1) "").data
  else if c = 'B' then (monthNames.getD (t.month - 1) "").data
  else if c = 'a' then (dayAbbrs.getD (pyWeekday t.year t.month t.day) "").data
  else if c = 'z' then strfZ t.zoff
  else if c = 'Z' then strfZname t.zoff
  else if c = '%' then ['%']
  else ['%', c]

def strftimeGo (t : PyDateTime) : List Char → List Char
  | [] => []
  | '%' :: '-' :: 'd' :: r => natStr t.day ++ strftimeGo t r
  | '%' :: c :: r => strfDir t c ++ strftimeGo t r
  | c :: r => c :: strftimeGo t r

/-- Model of `datetime.strftime` for the directives used in the format
table; `%-d` is the glibc unpadded-day extension. -/
def strftime (t : PyDateTime) (fmt : String) : String := ⟨strftimeGo t fmt.data⟩

/-! ## The explicit date-format table and `datetime_parse`
(`whois/parser.py`, `KNOWN_FORMATS` / `datetime_parse`, copied verbatim) -/

def KNOWN_FORMATS : List String := [
  "%d-%b-%Y",
  "%d-%B-%Y",
  "%d-%m-%Y",
  "%Y-%m-%d",
  "%d.%m.%Y",
  "%Y.%m.%d",
  "%Y/%m/%d",
  "%Y/%m/%d %H:%M:%S",
  "%Y/%m/%d %H:%M:%S (%z)",
  "%Y%m%d",
  "%Y%m%d %H:%M:%S",
  "%d/%m/%Y",
  "%Y. %m. %d.",
  "%Y.%m.%d %H:%M:%S",
  "%d-%b-%Y %H:%M:%S %Z",
  "%dth %B %Y at %H:%M:%S.%f",
  "%d %B %Y at %H:%M:%S.%f",
  "%-d %B %Y at %H:%M:%S.%f",
  "%a %b %d %H:%M:%S %Z %Y",
  "%a %b %d %H:%M:%S %Y",
  "%a %b %-d %H:%M:%S %Z %Y",
  "%a %b %-d %H:%M:%S %Y",
  "%a %b %-d %H:%M:%S %Y",
  "%a %b %d %Y",
  "%Y-%m-%d %H:%M:%S (%Z+0:00)",
  "%Y-%m-%dT%H:%M:%S",
  "%Y-%m-%dT%H:%M:%SZ",
  "%Y-%m-%dT%H:%M:%SZ[%Z]",
  "%Y-%m-%d %H:%M:%S %z",
  "%Y-%m-%d %H:%M:%S.%f",
  "%Y-%m-%dT%H:%M:%S.%fZ",
  "%Y-%m-%dT%H:%M:%S.%f%z",
  "%Y-%m-%d %H:%M:%S%z",
  "%Y-%m-%dT%H:%M:%S%z",
  "%Y-%m-%dT%H:%M:%S%zZ",
  "%Y-%m-%dt%H:%M:%S.%f",
  "%Y-%m-%dt%H:%M:%S",
  "%Y-%m-%dt%H:%M:%SZ",
  "%Y-%m-%dt%H:%M:%S.%fz",
  "%Y-%m-%dt%H:%M:%S%z",
  "%Y-%m-%dt%H:%M:%S.%f%z",
  "%Y-%m-%d %H:%M:%SZ",
  "%Y-%m-%d %H:%M:%S",
  "%d %b %Y %H:%M:%S",
  "%d/%m/%Y %H:%M:%S",
  "%d/%m/%Y %H:%M:%S %Z",
  "%d/%m/%Y %H:%M:%S.%f %Z",
  "%B %d %Y",
  "%d.%m.%Y %H:%M:%S",
  "%dst %B %Y at %H:%M:%S.%f",
  "before %Y",
  "before %b-%Y",
  "before %Y-%m-%d",
  "before %Y%m%d",
  "%Y-%m-%d %H:%M:%S (%Z%z)",
  "%Y-%b-%d."
]

/-- Model of `datetime_parse`: try each known format in order, return the
first success, otherwise raise `WhoisUnknownDateFormatError` with the
original text in the message. -/
def datetime_parse (s : String) : Except String PyDateTime :=
  match KNOWN_FORMATS.findSome? (fun f => strptime f s) with
  | some d => Except.ok d
  | none => Except.error ("Unknown date format: " ++ s)

/-! ## `cast_date`

The source evaluates
`default_tzinfo(dp.parse(s, ...), datetime.timezone.utc)` inside a
`try`/`except Exception` whose handler calls `datetime_parse(s)`.
In `parser.py`, `datetime` is the *class* imported by
`from datetime import datetime`, and that class has no attribute
`timezone`; so after `dp.parse` returns, the attribute lookup raises
`AttributeError`, which the bare `except` catches.  `dateutil.parser.parse`
is an external library modelled as an oracle `dparse`. -/

/-- The attribute `timezone` looked up on the `datetime` class: absent. -/
def datetimeClassTimezoneAttr : Option Unit := none

/-- `dateutil.utils.default_tzinfo`: attach `tz` when the datetime is naive. -/
def default_tzinfo (d : PyDateTime) (tz : Int) : PyDateTime :=
  if d.zoff = none then { d with zoff := some tz } else d

/-- Model of `cast_date`.  `dparse s dayfirst yearfirst` is the
`dateutil.parser.parse` oracle (`none` models a raised parse error). -/
def cast_date (dparse : String → Bool → Bool → Option PyDateTime)
    (s : String) (dayfirst yearfirst : Bool) : Except String PyDateTime :=
  let tryBody : Except Unit PyDateTime :=
    match dparse s dayfirst yearfirst with
    | none => Except.error ()
    | some d =>
      match datetimeClassTimezoneAttr with
      | none => Except.error ()
      | some _ => Except.ok (default_tzinfo d 0)
  match tryBody with
  | Except.ok d => Except.ok d
  | Except.error _ => datetime_parse s

/-! ## Round-trip specification (spec section 8, "Date round-trip")

`roundTripAgrees t fmt r` is the specification-side reading of "normalizing
the formatted string yields the same instant back, up to the precision that
the pattern encodes": every component the pattern carries comes back equal to
the instant's, components it does not carry come back as strptime's defaults,
and any zone attached to the result is the instant's zone. -/

/-- A concrete instant with full precision (a Monday, nonzero microseconds,
UTC-aware so that zone directives have material to format). -/
def knownInstant : PyDateTime := ⟨2008, 4, 14, 12, 30, 45, 123456, some 0⟩

/-- Does the format contain the directive `%c`? -/
def fmtHasDir (fmt : String) (c : Char) : Bool := containsSub ['%', c] fmt.data

/-- Agreement up to the precision the pattern encodes. -/
def roundTripAgrees (t : PyDateTime) (fmt : String) (r : PyDateTime) : Bool :=
  let hasY := fmtHasDir fmt 'Y'
  let hasMo := fmtHasDir fmt 'm' || fmtHasDir fmt 'b' || fmtHasDir fmt 'B'
  let hasD := fmtHasDir fmt 'd' || containsSub ['%', '-', 'd'] fmt.data
  (r.year == if hasY then t.year else 1900) &&
  (r.month == if hasMo then t.month else 1) &&
  (r.day == if hasD then t.day else 1) &&
  (r.hour == if fmtHasDir fmt 'H' then t.hour else 0) &&
  (r.minute == if fmtHasDir fmt 'M' then t.minute else 0) &&
  (r.second == if fmtHasDir fmt 'S' then t.second else 0) &&
  (r.usec == if fmtHasDir fmt 'f' then t.usec else 0) &&
  (match r.zoff with | none => true | some o => t.zoff == some o) &&
  (!fmtHasDir fmt 'z' || r.zoff == t.zoff)

/-! ## Field extraction: `WhoisEntry.parse` and `WhoisEntry._preprocess`

`parse` runs `re.findall` for each field and then, per match value:
strip, optionally cast to a date, case-insensitive dedup preserving
first-seen order, scalar truncation for the three scalar-preferred fields,
and the final scalar/list/None collapse.  The regex engine's output is the
`groups` argument (one list of captured groups per match, in document
order); platform regexes used by concrete claims are modelled separately. -/

/-- A value accepted into the `values` list: a string or a cast date. -/
inductive WVal where
  | str (s : String)
  | date (d : PyDateTime)
  deriving DecidableEq, Repr

/-- Python `str(datetime)`: ISO-like, microseconds only when nonzero,
UTC offset as a suffix only when aware. -/
def dtStr (d : PyDateTime) : String :=
  ⟨pad4 d.year ++ '-' :: pad2 d.month ++ '-' :: pad2 d.day ++ ' ' ::
   pad2 d.hour ++ ':' :: pad2 d.minute ++ ':' :: pad2 d.second ++
   (if d.usec = 0 then [] else '.' :: pad6 d.usec) ++
   (match d.zoff with
    | none => []
    | some o =>
      (if o < 0 then '-' else '+') ::
        (pad2 (o.natAbs / 3600) ++ ':' :: pad2 (o.natAbs % 3600 / 60)))⟩

/-- Python `str(value)` as used by the dedup comparison. -/
def strOfVal : WVal → String
  | .str s => s
  | .date d => dtStr d

/-- Python truthiness of an accepted value. -/
def truthy : WVal → Bool
  | .str s => s != ""
  | .date _ => true

/-- Model of `_preprocess`: strip; if the attribute is a date field and the
stripped value is not purely numeric, apply the optional data preprocessor
and cast; errors raised by `cast_date` propagate. -/
def preprocessVal (dataPre : Option (String → String))
    (dparse : String → Bool → Bool → Option PyDateTime)
    (dayfirst yearfirst : Bool) (attr value : String) : Except String WVal :=
  let v := pyStrip value
  if v != "" && !pyIsDigit v && containsSub "_date".data attr.data then
    let v2 := match dataPre with | some f => f v | none => v
    (cast_date dparse v2 dayfirst yearfirst).map WVal.date
  else Except.ok (WVal.str v)

/-- One iteration of the dedup loop: append `v` when truthy and its
lower-cased string form is not already present. -/
def dedupStep (values : List WVal) (v : WVal) : List WVal :=
  if truthy v && !(values.map (fun w => pyLower (strOfVal w))).contains (pyLower (strOfVal v))
  then values ++ [v]
  else values

/-- The dedup loop over all preprocessed values, in document order. -/
def acceptFrom : List WVal → List WVal → List WVal
  | acc, [] => acc
  | acc, v :: vs => acceptFrom (dedupStep acc v) vs

/-- The value stored in the entry dict for one field: `None`, a scalar, or a
list. -/
inductive FieldVal where
  | fNone
  | fScalar (v : WVal)
  | fList (vs : List WVal)
  deriving DecidableEq, Repr

/-- The fields truncated to their last accepted value ("ignore junk"). -/
def scalarPreferred : List String := ["registrar", "whois_server", "referral_url"]

/-- The collapse step at the end of the per-field loop in `parse`. -/
def collapseVals (attr : String) (values : List WVal) : FieldVal :=
  let values :=
    if !values.isEmpty && scalarPreferred.contains attr
    then values.drop (values.length - 1)
    else values
  match values with
  | [v] => FieldVal.fScalar v
  | [] => FieldVal.fNone
  | vs => FieldVal.fList vs

/-- The body of the per-field loop in `WhoisEntry.parse` for one
`(attr, regex)` pair.  `groups` is the `re.findall` output: the captured
groups of each match, in document order (`findall` yields a string for a
single group and a tuple for several; both are lists here). -/
def parseField (dparse : String → Bool → Bool → Option PyDateTime)
    (dataPre : Option (String → String)) (dayfirst yearfirst : Bool)
    (attr : String) (groups : List (List String)) : Except String FieldVal := do
  let vals ← (groups.flatten).mapM (preprocessVal dataPre dparse dayfirst yearfirst attr)
  pure (collapseVals attr (acceptFrom [] vals))

/-! ## `re.findall` for the field patterns of shape `Key: *(.+)`

All base-table patterns exercised by the claims have the shape
literal key, a run of optional spaces, then a greedy `(.+)` capture that
stops at the end of the line (`IGNORECASE | MULTILINE`; the dot does not
match a newline).  When the rest of the line is empty but at least one space
was available, the regex backtracks and captures a single space. -/

/-- Greedy `(.+)` capture: the rest of the line. -/
def takeLine (s : List Char) : List Char := s.takeWhile (fun c => c ≠ '\n')

/-- Non-overlapping scan for `Key: *(.+)`; `fuel` bounds the recursion and is
instantiated with the text length. -/
def keyLineGo (key : List Char) : Nat → List Char → List (List Char)
  | 0, _ => []
  | _, [] => []
  | fuel + 1, s@(_ :: tl) =>
    match litCI key s with
    | some rest =>
      let sp := (rest.takeWhile (fun c => c = ' ')).length
      let afterSp := rest.drop sp
      let line := takeLine afterSp
      if line.isEmpty then
        if sp = 0 then keyLineGo key fuel tl
        else [' '] :: keyLineGo key fuel afterSp
      else line :: keyLineGo key fuel (afterSp.drop line.length)
    | none => keyLineGo key fuel tl

/-- `re.findall(key + " *(.+)", text, re.IGNORECASE | re.M)`, one singleton
group list per match. -/
def findall_key_line (key text : String) : List (List String) :=
  (keyLineGo key.data (text.data.length + 1) text.data).map
    (fun l => [(⟨l⟩ : String)])

/-! ## `whois/whois.py`: NICClient host constants (the ones the modelled
functions reference) -/

def ANICHOST : String := "whois.arin.net"
def AI_HOST : String := "whois.nic.ai"
def APP_HOST : String := "whois.nic.google"
def AR_HOST : String := "whois.nic.ar"
def BNICHOST : String := "whois.registro.br"
def BW_HOST : String := "whois.nic.net.bw"
def BY_HOST : String := "whois.cctld.by"
def CA_HOST : String := "whois.ca.fury.ca"
def CHAT_HOST : String := "whois.nic.chat"
def CL_HOST : String := "whois.nic.cl"
def CR_HOST : String := "whois.nic.cr"
def DENICHOST : String := "whois.denic.de"
def DEV_HOST : String := "whois.nic.google"
def DE_HOST : String := "whois.denic.de"
def DK_HOST : String := "whois.dk-hostmaster.dk"
def DO_HOST : String := "whois.nic.do"
def GAMES_HOST : String := "whois.nic.games"
def GOOGLE_HOST : String := "whois.nic.google"
def GROUP_HOST : String := "whois.namecheap.com"
def HK_HOST : String := "whois.hkirc.hk"
def HN_HOST : String := "whois.nic.hn"
def HR_HOST : String := "whois.dns.hr"
def IST_HOST : String := "whois.afilias-srs.net"
def JOBS_HOST : String := "whois.nic.jobs"
def JP_HOST : String := "whois.jprs.jp"
def KZ_HOST : String := "whois.nic.kz"
def LAT_HOST : String := "whois.nic.lat"
def LI_HOST : String := "whois.nic.li"
def LIVE_HOST : String := "whois.nic.live"
def LNICHOST : String := "whois.lacnic.net"
def LT_HOST : String := "whois.domreg.lt"
def MARKET_HOST : String := "whois.nic.market"
def MONEY_HOST : String := "whois.nic.money"
def MX_HOST : String := "whois.mx"
def NICHOST : String := "whois.crsnic.net"
def NL_HOST : String := "whois.domain-registry.nl"
def NORIDHOST : String := "whois.norid.no"
def ONLINE_HOST : String := "whois.nic.online"
def OOO_HOST : String := "whois.nic.ooo"
def PAGE_HOST : String := "whois.nic.page"
def PANDIHOST : String := "whois.pandi.or.id"
def PE_HOST : String := "kero.yachay.pe"
def PNICHOST : String := "whois.apnic.net"
def QNICHOST_TAIL : String := ".whois-servers.net"
def RNICHOST : String := "whois.ripe.net"
def WEBSITE_HOST : String := "whois.nic.website"
def ZA_HOST : String := "whois.registry.net.za"
def RU_HOST : String := "whois.tcinet.ru"
def IDS_HOST : String := "whois.identitydigital.services"
def GDD_HOST : String := "whois.dnrs.godaddy"
def SHOP_HOST : String := "whois.nic.shop"
def SG_HOST : String := "whois.sgnic.sg"
def STORE_HOST : String := "whois.centralnic.com"
def STUDIO_HOST : String := "whois.nic.studio"
def DETI_HOST : String := "whois.nic.xn--d1acj3b"
def MOSKVA_HOST : String := "whois.registry.nic.xn--80adxhks"
def RF_HOST : String := "whois.registry.tcinet.ru"
def PIR_HOST : String := "whois.publicinterestregistry.org"
def NG_HOST : String := "whois.nic.net.ng"
def PPUA_HOST : String := "whois.pp.ua"
def UKR_HOST : String := "whois.dotukr.com"
def TN_HOST : String := "whois.ati.tn"
def SBS_HOST : String := "whois.nic.sbs"
def SITE_HOST : String := "whois.nic.site"
def DESIGN_HOST : String := "whois.nic.design"

def WHOIS_RECURSE : Nat := 1
def WHOIS_QUICK : Nat := 2

def ip_whois : List String := [LNICHOST, RNICHOST, PNICHOST, BNICHOST, PANDIHOST]

/-! ## `NICClient.findwhois_server`

The referral regex is
literal `Domain Name: `, the interpolated query, whitespace-star, a lazy
any-run, literal `Whois Server: `, a lazy capture, one whitespace char --
compiled with `IGNORECASE` and `DOTALL` and applied with `search`.  Because
a dot in the interpolated query is itself a regex wildcard, a query
character `.` matches any character.  The scan below reproduces the
leftmost-match, lazy-gap, lazy-capture semantics. -/

/-- Match the interpolated query: `.` is a wildcard (DOTALL), all else is a
case-insensitive literal. -/
def matchQuery : List Char → List Char → Option (List Char)
  | [], s => some s
  | _ :: _, [] => none
  | q :: qs, c :: cs => if q = '.' || lc q = lc c then matchQuery qs cs else none

/-- From a position after the query match, find (lazily, left to right) the
first `Whois Server: ` whose capture is terminated by a whitespace
character; the capture is everything before that first whitespace. -/
def whoisServerScan : Nat → List Char → Option (List Char)
  | 0, _ => none
  | _, [] => none
  | fuel + 1, s@(_ :: tl) =>
    match litCI "Whois Server: ".data s with
    | some rest =>
      let cap := rest.takeWhile (fun c => !(isWs c))
      if (rest.drop cap.length).isEmpty then whoisServerScan fuel tl
      else some cap
    | none => whoisServerScan fuel tl

/-- Leftmost search for `Domain Name: <query>` followed eventually by a
terminated `Whois Server: ` capture. -/
def domainNameScan (query : List Char) : Nat → List Char → Option (List Char)
  | 0, _ => none
  | _, [] => none
  | fuel + 1, s@(_ :: tl) =>
    match litCI "Domain Name: ".data s with
    | some r1 =>
      match matchQuery query r1 with
      | some r2 =>
        match whoisServerScan (r2.length + 1) r2 with
        | some cap => some cap
        | none => domainNameScan query fuel tl
      | none => domainNameScan query fuel tl
    | none => domainNameScan query fuel tl

/-- Model of `NICClient.findwhois_server(buf, hostname, query)`. -/
def findwhois_server (buf hostname query : String) : Option String :=
  match domainNameScan query.data (buf.data.length + 1) buf.data with
  | some cap => if cap.contains '/' then none else some ⟨cap⟩
  | none =>
    if hostname = ANICHOST then
      ip_whois.find? (fun nic => containsSub nic.data buf.data)
    else none

/-! ## `NICClient.whois`

The network is an oracle `net host queryLine`; `Except.error` models a
raised `socket.error` for the whole connect/send/recv interaction, and
`Except.ok` the reply decoded with replacement (decoding never fails).
The result carries the returned text together with the number of transport
round trips attempted (each `net` use counts one).  `fuel` bounds the
recursion; the Python source recurses unboundedly on the `=xxx` marker. -/

/-- The query-line composition at the top of `NICClient.whois`. -/
def queryString (hostname query : String) (many_results : Bool) : String :=
  if hostname = DENICHOST then "-T dn,ace -C UTF-8 " ++ query
  else if hostname = DK_HOST then " --show-handles " ++ query
  else if pyEndsWith hostname ".jp" then query ++ "/e"
  else if pyEndsWith hostname QNICHOST_TAIL && many_results then "=" ++ query
  else query

/-- The marker that triggers a retry with `many_results=True`. -/
def manyMarker : String := "with \"=xxx\""

/-- The `try:` body of `NICClient.whois`: everything between `s.connect` and
the final concatenation; `recur` is the recursive call (whose own handler
has already dealt with its socket errors).  An `Except.error` here is a
`socket.error` escaping the body into this frame's handler. -/
def whoisBody (net : String → String → Except String String)
    (recur : String → String → Nat → Bool → String × Nat)
    (query hostname : String) (flags : Nat) (many_results : Bool) :
    Except String (String × Nat) :=
  match net hostname (queryString hostname query many_results) with
  | Except.error exc => Except.error exc
  | Except.ok response =>
    if containsSub manyMarker.data response.data then
      let r := recur query hostname flags true
      Except.ok (r.1, r.2 + 1)
    else
      let nhost :=
        if Nat.land flags WHOIS_RECURSE ≠ 0 then
          findwhois_server response hostname query
        else none
      match nhost with
      | some nh =>
        if nh = "" then Except.ok (response, 1)
        else
          let r2 := recur query nh 0 false
          Except.ok (response ++ r2.1, 1 + r2.2)
      | none => Except.ok (response, 1)

/-- Model of `NICClient.whois`: run the body, and on a socket error return
the sentinel text, exactly as the `except socket.error` handler does. -/
def whois (net : String → String → Except String String) :
    Nat → String → String → Nat → Bool → String × Nat
  | 0, _, _, _, _ => ("", 0)
  | fuel + 1, query, hostname, flags, many_results =>
    match whoisBody net (whois net fuel) query hostname flags many_results with
    | Except.ok r => r
    | Except.error exc => ("Socket not responding: " ++ exc, 1)

/-! ## `NICClient.findwhois_iana` and `NICClient.choose_server`

`findwhois_iana` opens a socket to whois.iana.org (modelled by the oracle
`net`, `Except.error` a raised socket error, which nothing catches), then
extracts the first group of `whois:` whitespace-plus lazy-capture
newline with `re.search(...).group(1)`; if the regex does not match,
`.group` is called on `None` and an `AttributeError` is raised. -/

/-- Greedy whitespace run followed by a lazy capture terminated by a
newline: try the longest whitespace prefix first, backtracking shorter. -/
def ianaTryWs (rest : List Char) : Nat → Option (List Char)
  | 0 => none
  | j + 1 =>
    let r2 := rest.drop (j + 1)
    let cap := r2.takeWhile (fun c => c ≠ '\n')
    if (r2.drop cap.length).isEmpty then ianaTryWs rest j
    else some cap

/-- Leftmost search for the `whois:` line (case-sensitive; `re.search`
without flags). -/
def ianaScan : Nat → List Char → Option (List Char)
  | 0, _ => none
  | _, [] => none
  | fuel + 1, s@(_ :: tl) =>
    match
      (match s with
       | 'w' :: 'h' :: 'o' :: 'i' :: 's' :: ':' :: r => some r
       | _ => none)
    with
    | some rest =>
      let k := (rest.takeWhile isWs).length
      match ianaTryWs rest k with
      | some cap => some cap
      | none => ianaScan fuel tl
    | none => ianaScan fuel tl

/-- Model of `NICClient.findwhois_iana(tld)`. -/
def findwhois_iana (net : String → Except String String) (tld : String) :
    Except String String :=
  match net tld with
  | Except.error e => Except.error e
  | Except.ok response =>
    match ianaScan (response.data.length + 1) response.data with
    | some cap => Except.ok ⟨cap⟩
    | none => Except.error "AttributeError"

/-- Python `domain.split(".")`. -/
def splitOnDot : List Char → List (List Char)
  | [] => [[]]
  | c :: r =>
    let rest := splitOnDot r
    if c = '.' then [] :: rest
    else
      match rest with
      | h :: t => (c :: h) :: t
      | [] => [[c]]

/-- Model of `NICClient.choose_server(domain)`.

`idna` is the `str.encode("idna")` oracle; `net` the IANA response oracle
used on the fallback path.  The result pairs the chosen host (`none` models
Python `None`) with the number of network calls performed; `Except.error`
models an uncaught exception (the `IndexError` on an empty last label, a
socket error, or the `AttributeError` from `findwhois_iana`). -/
def choose_server (net : String → Except String String) (idna : String → String)
    (domain : String) : Except String (Option String × Nat) :=
  let d := idna domain
  if pyEndsWith d "-NORID" then Except.ok (some NORIDHOST, 0)
  else if pyEndsWith d "id" then Except.ok (some PANDIHOST, 0)
  else if pyEndsWith d "hr" then Except.ok (some HR_HOST, 0)
  else if pyEndsWith d ".pp.ua" then Except.ok (some PPUA_HOST, 0)
  else
    let parts := splitOnDot d.data
    if parts.length < 2 then Except.ok (none, 0)
    else
      match parts.getLastD [] with
      | [] => Except.error "IndexError"
      | t0 :: trest =>
        let tld : String := ⟨t0 :: trest⟩
        if t0.isDigit then Except.ok (some ANICHOST, 0)
        else if tld = "ai" then Except.ok (some AI_HOST, 0)
        else if tld = "app" then Except.ok (some APP_HOST, 0)
        else if tld = "ar" then Except.ok (some AR_HOST, 0)
        else if tld = "bw" then Except.ok (some BW_HOST, 0)
        else if tld = "by" then Except.ok (some BY_HOST, 0)
        else if tld = "ca" then Except.ok (some CA_HOST, 0)
        else if tld = "chat" then Except.ok (some CHAT_HOST, 0)
        else if tld = "cl" then Except.ok (some CL_HOST, 0)
        else if tld = "cr" then Except.ok (some CR_HOST, 0)
        else if tld = "de" then Except.ok (some DE_HOST, 0)
        else if tld = "dev" then Except.ok (some DEV_HOST, 0)
        else if tld = "dk" then Except.ok (some DK_HOST, 0)
        else if tld = "do" then Except.ok (some DO_HOST, 0)
        else if tld = "games" then Except.ok (some GAMES_HOST, 0)
        else if tld = "goog" ∨ tld = "google" then Except.ok (some GOOGLE_HOST, 0)
        else if tld = "group" then Except.ok (some GROUP_HOST, 0)
        else if tld = "hk" then Except.ok (some HK_HOST, 0)
        else if tld = "hn" then Except.ok (some HN_HOST, 0)
        else if tld = "ist" then Except.ok (some IST_HOST, 0)
        else if tld = "jobs" then Except.ok (some JOBS_HOST, 0)
        else if tld = "jp" then Except.ok (some JP_HOST, 0)
        else if tld = "kz" then Except.ok (some KZ_HOST, 0)
        else if tld = "lat" then Except.ok (some LAT_HOST, 0)
        else if tld = "li" then Except.ok (some LI_HOST, 0)
        else if tld = "live" then Except.ok (some LIVE_HOST, 0)
        else if tld = "lt" then Except.ok (some LT_HOST, 0)
        else if tld = "market" then Except.ok (some MARKET_HOST, 0)
        else if tld = "money" then Except.ok (some MONEY_HOST, 0)
        else if tld = "mx" then Except.ok (some MX_HOST, 0)
        else if tld = "nl" then Except.ok (some NL_HOST, 0)
        else if tld = "online" then Except.ok (some ONLINE_HOST, 0)
        else if tld = "ooo" then Except.ok (some OOO_HOST, 0)
        else if tld = "page" then Except.ok (some PAGE_HOST, 0)
        else if tld = "pe" then Except.ok (some PE_HOST, 0)
        else if tld = "website" then Except.ok (some WEBSITE_HOST, 0)
        else if tld = "za" then Except.ok (some ZA_HOST, 0)
        else if tld = "ru" then Except.ok (some RU_HOST, 0)
        else if tld = "bz" then Except.ok (some RU_HOST, 0)
        else if tld = "city" then Except.ok (some RU_HOST, 0)
        else if tld = "design" then Except.ok (some DESIGN_HOST, 0)
        else if tld = "studio" then Except.ok (some STUDIO_HOST, 0)
        else if tld = "style" then Except.ok (some RU_HOST, 0)
        else if tld = "su" then Except.ok (some RU_HOST, 0)
        else if tld = "рус" ∨ tld = "xn--p1acf" then Except.ok (some RU_HOST, 0)
        else if tld = "direct" then Except.ok (some IDS_HOST, 0)
        else if tld = "group" then Except.ok (some IDS_HOST, 0)
        else if tld = "immo" then Except.ok (some IDS_HOST, 0)
        else if tld = "life" then Except.ok (some IDS_HOST, 0)
        else if tld = "fashion" then Except.ok (some GDD_HOST, 0)
        else if tld = "vip" then Except.ok (some GDD_HOST, 0)
        else if tld = "shop" then Except.ok (some SHOP_HOST, 0)
        else if tld = "store" then Except.ok (some STORE_HOST, 0)
        else if tld = "дети" ∨ tld = "xn--d1acj3b" then Except.ok (some DETI_HOST, 0)
        else if tld = "москва" ∨ tld = "xn--80adxhks" then Except.ok (some MOSKVA_HOST, 0)
        else if tld = "рф" ∨ tld = "xn--p1ai" then Except.ok (some RF_HOST, 0)
        else if tld = "орг" ∨ tld = "xn--c1avg" then Except.ok (some PIR_HOST, 0)
        else if tld = "ng" then Except.ok (some NG_HOST, 0)
        else if tld = "укр" ∨ tld = "xn--j1amh" then Except.ok (some UKR_HOST, 0)
        else if tld = "tn" then Except.ok (some TN_HOST, 0)
        else if tld = "sbs" then Except.ok (some SBS_HOST, 0)
        else if tld = "sg" then Except.ok (some SG_HOST, 0)
        else if tld = "site" then Except.ok (some SITE_HOST, 0)
        else (findwhois_iana net tld).map (fun h => (some h, 1))

/-! ## Attribute access on `WhoisEntry` (`__getattr__`)

A `WhoisEntry` is a `dict` subclass; parsed fields live as dict items, never
as attributes.  Python calls `__getattr__` only after normal attribute
lookup (instance `__dict__`, then class attributes) fails, and the class
defines `__getattr__ = lambda self, name: self.get(name)`.  `dict.get`
returns `None` for a missing key, and parsed-but-unmatched fields are stored
as the value `None` -- modelled by `FieldVal.fNone` on both sides. -/

/-- The attribute names found by normal lookup: the instance attributes set
in `__init__` and the class attributes of `WhoisEntry`. -/
def whoisEntryAttrNames : List String :=
  ["domain", "text", "_regex", "_data_preprocessor", "dayfirst", "yearfirst"]

/-- Python `self.get(name)` on the entry's dict items. -/
def dict_get (items : List (String × FieldVal)) (name : String) : FieldVal :=
  match items.lookup name with
  | some v => v
  | none => FieldVal.fNone

/-- The result of attribute access: a real attribute, or a value produced by
`__getattr__`. -/
inductive PyAttr where
  | attrObj
  | fieldVal (v : FieldVal)
  deriving DecidableEq, Repr

/-- Model of Python attribute access on a `WhoisEntry`; an `Except.error`
would be an `AttributeError` escaping to the caller. -/
def getattr_model (items : List (String × FieldVal)) (name : String) :
    Except String PyAttr :=
  if name ∈ whoisEntryAttrNames then Except.ok PyAttr.attrObj
  else Except.ok (PyAttr.fieldVal (dict_get items name))

/-! ## Concrete oracles used to instantiate the theorems below -/

/-- A `dateutil.parser.parse` oracle that always raises. -/
def noDateutil : String → Bool → Bool → Option PyDateTime := fun _ _ _ => none

/-- A `dateutil` oracle that parses the ISO date `2023-01-02` (which the
real `dateutil` parses) and raises on everything else. -/
def dparseIso : String → Bool → Bool → Option PyDateTime := fun s _ _ =>
  if s = "2023-01-02" then some ⟨2023, 1, 2, 0, 0, 0, 0, none⟩ else none

/-- A transport oracle on which every connect/read raises a timeout. -/
def netTimeout : String → String → Except String String :=
  fun _ _ => Except.error "timed out"

/-- A first-hop response whose referral annotation names the very host being
queried. -/
def referralSameResp : String :=
  "Domain Name: example.com\nRegistrar: Generic\nWhois Server: whois.same.example\n"

/-- A transport oracle: the queried host answers with `referralSameResp`. -/
def netReferralSame : String → String → Except String String := fun h q =>
  if h = "whois.same.example" && q = "example.com" then Except.ok referralSameResp
  else Except.error "unexpected"

/-- A first-hop response referring to a different registrar host. -/
def refRespA : String :=
  "Domain Name: example.com\nWhois Server: whois.registrar.example\n"

/-- The referral target's response. -/
def refRespB : String := "Registrar: Registrar Inc\n"

/-- A transport oracle realising a classic two-host referral. -/
def netRef : String → String → Except String String := fun h _q =>
  if h = "whois.crsnic.net" then Except.ok refRespA
  else if h = "whois.registrar.example" then Except.ok refRespB
  else Except.error "unexpected"

/-- An IANA oracle answering the `com` root query the way whois.iana.org
does. -/
def ianaComNet : String → Except String String := fun t =>
  if t = "com" then
    Except.ok "refer:        whois.verisign-grs.com\n\nwhois:        whois.verisign-grs.com\n"
  else Except.error "unreachable"

/-- An IANA oracle on which any network use raises. -/
def ianaDead : String → Except String String := fun _ => Except.error "no network"

/-- Decidable check used by the C7 statement: format, then normalize, then
compare up to the precision the pattern encodes. -/
def roundTripOK (p : String) : Bool :=
  match datetime_parse (strftime knownInstant p) with
  | Except.ok r => roundTripAgrees knownInstant p r
  | Except.error _ => false

/-! # Theorems -/

/-- The attribute bug makes `cast_date` fall through to `datetime_parse` on
every input, whatever `dateutil` would have returned. -/
theorem cast_date_eq_datetime_parse (dparse : String → Bool → Bool → Option PyDateTime)
    (s : String) (df yf : Bool) : cast_date dparse s df yf = datetime_parse s := by
  unfold cast_date
  cases dparse s df yf <;> rfl

/-- `dedupStep` either keeps the accumulator or appends the new value. -/
theorem dedupStep_cases (acc : List WVal) (v : WVal) :
    dedupStep acc v = acc ++ [v] ∨ dedupStep acc v = acc := by
  unfold dedupStep
  split
  · exact Or.inl rfl
  · exact Or.inr rfl

/-- The dedup loop only appends input elements, in order: its output extends
the accumulator by a sublist of the input. -/
theorem acceptFrom_sublist (vs : List WVal) : ∀ acc : List WVal,
    ∃ ex, acceptFrom acc vs = acc ++ ex ∧ List.Sublist ex vs := by
  induction vs with
  | nil =>
    intro acc
    exact ⟨[], by simp [acceptFrom], List.nil_sublist []⟩
  | cons v vs ih =>
    intro acc
    have hstep : acceptFrom acc (v :: vs) = acceptFrom (dedupStep acc v) vs := rfl
    rcases dedupStep_cases acc v with h | h
    · obtain ⟨ex, he, hs⟩ := ih (dedupStep acc v)
      refine ⟨v :: ex, ?_, ?_⟩
      · rw [hstep, he, h]
        simp
      · exact List.Sublist.cons₂ v hs
    · obtain ⟨ex, he, hs⟩ := ih (dedupStep acc v)
      refine ⟨ex, ?_, ?_⟩
      · rw [hstep, he, h]
      · exact List.Sublist.cons v hs

/-- Helper: every entry of the explicit format table round-trips the known
instant up to its encoded precision (checked by evaluation). -/
theorem roundtrip_all : KNOWN_FORMATS.all roundTripOK = true := by decide

/-- C1: the claim states that a transport failure on the first hop is
propagated to the caller as a transport error and that the operation never
returns a normal text result in that case.  On the code this is false: the
`except socket.error` handler in `NICClient.whois` catches the error raised
inside the `try` body (first conjunct) and the operation returns the
ordinary text `Socket not responding: <error>` to the caller (second
conjunct) -- a normal string result, with no exception propagated. -/
theorem C1_counterexample :
    whoisBody netTimeout (whois netTimeout 2) "example.com" "whois.verisign-grs.com"
        WHOIS_RECURSE false = Except.error "timed out"
    ∧ whois netTimeout 3 "example.com" "whois.verisign-grs.com" WHOIS_RECURSE false
        = ("Socket not responding: timed out", 1) :=
  ⟨rfl, rfl⟩

/-- C1 amended: a transport failure (connection failure, DNS failure or
timeout) on the first hop is caught inside `NICClient.whois`, which returns
the sentinel text `Socket not responding: <error>` as the query result after
a single transport attempt; no transport error reaches the caller. -/
theorem C1_amended (net : String → String → Except String String)
    (q h : String) (flags : Nat) (many : Bool) (fuel : Nat) (e : String)
    (hnet : net h (queryString h q many) = Except.error e) :
    whois net (fuel + 1) q h flags many = ("Socket not responding: " ++ e, 1) := by
  simp only [whois, whoisBody, hnet]

/-- Witness for C1: the amended theorem applied to the timeout oracle. -/
theorem C1_witness :
    netTimeout "whois.verisign-grs.com"
        (queryString "whois.verisign-grs.com" "example.com" false) = Except.error "timed out"
    ∧ whois netTimeout 1 "example.com" "whois.verisign-grs.com" WHOIS_RECURSE false
        = ("Socket not responding: timed out", 1) :=
  ⟨rfl, C1_amended netTimeout "example.com" "whois.verisign-grs.com" WHOIS_RECURSE false 0
    "timed out" rfl⟩

/-- C2: the claim states that resolving the TLD `com` returns a fixed host
from the static table with zero network calls.  On the code this is false:
`choose_server` has no `com` arm in its static chain, so a `.com` domain
falls through to `findwhois_iana`, a live query against whois.iana.org.
With an IANA oracle answering as the real service does, the chosen host is
taken from the network reply and the network-call count is 1, not 0. -/
theorem C2_counterexample :
    choose_server ianaComNet (fun s => s) "example.com"
      = Except.ok (some "whois.verisign-grs.com", 1) := by
  rfl

/-- C2 amended: resolving a `.com` domain (here `example.com`, with IDNA
encoding the identity on this ASCII input) is not served by the static
table: it performs exactly one live IANA root query for `com` and returns
whatever host that query extracts, propagating its failure otherwise. -/
theorem C2_amended (net : String → Except String String) :
    choose_server net (fun s => s) "example.com"
      = (findwhois_iana net "com").map (fun h => (some h, 1)) := by
  rfl

/-- C3: the claim states the referral hop is issued only when the detected
`Whois Server` host differs from the host already queried.  On the code this
is false: `NICClient.whois` never compares `nhost` with `hostname`.  Here
the first response names exactly the host that was queried, yet a second
transport query is issued (two round trips) and the same response text is
concatenated twice. -/
theorem C3_counterexample :
    findwhois_server referralSameResp "whois.same.example" "example.com"
        = some "whois.same.example"
    ∧ whois netReferralSame 2 "example.com" "whois.same.example" WHOIS_RECURSE false
        = (referralSameResp ++ referralSameResp, 2) :=
  ⟨rfl, rfl⟩

/-- C3 amended: when referral-following is requested and the first response
embeds a `Whois Server` annotation for the queried domain (a nonempty,
slash-free host), the client issues exactly one additional query against
that host -- whether or not it equals the host already queried -- provided
neither response contains the `=xxx` retry marker; the result is the two
responses concatenated, first hop first. -/
theorem C3_amended (net : String → String → Except String String)
    (q h resp1 nh resp2 : String)
    (h1 : net h (queryString h q false) = Except.ok resp1)
    (hm1 : containsSub manyMarker.data resp1.data = false)
    (hf : findwhois_server resp1 h q = some nh)
    (hne : nh ≠ "")
    (h2 : net nh (queryString nh q false) = Except.ok resp2)
    (hm2 : containsSub manyMarker.data resp2.data = false) :
    whois net 2 q h WHOIS_RECURSE false = (resp1 ++ resp2, 2) := by
  have hrec : Nat.land WHOIS_RECURSE WHOIS_RECURSE ≠ 0 := by decide
  have hnorec : ¬(Nat.land 0 WHOIS_RECURSE ≠ 0) := by decide
  simp only [whois, whoisBody, h1, h2, hm1, hm2, hf, hrec, hne,
    Bool.false_eq_true, if_false, if_neg hnorec, if_pos hrec, if_neg hne]

/-- Witness for C3: a two-host referral with distinct hosts, exactly two
round trips. -/
theorem C3_witness :
    whois netRef 2 "example.com" "whois.crsnic.net" WHOIS_RECURSE false
      = (refRespA ++ refRespB, 2) :=
  C3_amended netRef "example.com" "whois.crsnic.net" refRespA
    "whois.registrar.example" refRespB rfl rfl rfl (by decide) rfl rfl

/-- C4: the claim states that whenever the general natural-language parser
succeeds, normalization returns a timezone-aware instant (UTC by default).
The code cannot do this: after `dp.parse` succeeds, evaluating
`datetime.timezone.utc` raises `AttributeError` (`datetime` is the class,
which has no `timezone` attribute), the bare `except` catches it, and
`cast_date` falls back to `datetime_parse`.  Here the oracle parses
`2023-01-02` (first conjunct: the general parser succeeds), yet `cast_date`
returns the strptime result with `zoff = none` -- a naive datetime, not a
timezone-aware UTC instant.  The fallback contradicts the code's own
comment, which says it uses `datetime.timezone.utc` to attach UTC. -/
theorem C4_theorem :
    dparseIso "2023-01-02" false false = some ⟨2023, 1, 2, 0, 0, 0, 0, none⟩
    ∧ cast_date dparseIso "2023-01-02" false false
        = Except.ok ⟨2023, 1, 2, 0, 0, 0, 0, none⟩ :=
  ⟨rfl, rfl⟩

/-- C5: extracting the scalar-preferred `registrar` field from
`Registrar: Example A\nRegistrar: Example B\n` keeps only the last accepted
value, yielding the single scalar `Example B`. -/
theorem C5_theorem :
    parseField noDateutil none false false "registrar"
        (findall_key_line "Registrar:" "Registrar: Example A\nRegistrar: Example B\n")
      = Except.ok (FieldVal.fScalar (WVal.str "Example B")) := by
  rfl

/-- C6: for every field that is not scalar-preferred, once preprocessing of
the matched values succeeds the collapse is: no accepted value, field
absent (stored `None`); exactly one, that scalar; two or more, the ordered
list of accepted values -- and the accepted values are a sublist of the
preprocessed match values, so first-seen order is preserved. -/
theorem C6_theorem (dparse : String → Bool → Bool → Option PyDateTime)
    (dataPre : Option (String → String)) (df yf : Bool)
    (attr : String) (groups : List (List String)) (vals : List WVal)
    (hattr : attr ∉ scalarPreferred)
    (hvals : (groups.flatten).mapM (preprocessVal dataPre dparse df yf attr)
        = Except.ok vals) :
    (acceptFrom [] vals = [] →
      parseField dparse dataPre df yf attr groups = Except.ok FieldVal.fNone)
    ∧ (∀ v, acceptFrom [] vals = [v] →
      parseField dparse dataPre df yf attr groups = Except.ok (FieldVal.fScalar v))
    ∧ (2 ≤ (acceptFrom [] vals).length →
      parseField dparse dataPre df yf attr groups
        = Except.ok (FieldVal.fList (acceptFrom [] vals)))
    ∧ List.Sublist (acceptFrom [] vals) vals := by
  have hcontains : scalarPreferred.contains attr = false := by
    cases hc : scalarPreferred.contains attr with
    | false => rfl
    | true => exact absurd (List.mem_of_elem_eq_true hc) hattr
  have hpf : parseField dparse dataPre df yf attr groups
      = Except.ok (collapseVals attr (acceptFrom [] vals)) := by
    unfold parseField
    rw [hvals]
    rfl
  have hcol : collapseVals attr (acceptFrom [] vals)
      = match acceptFrom [] vals with
        | [v] => FieldVal.fScalar v
        | [] => FieldVal.fNone
        | vs => FieldVal.fList vs := by
    unfold collapseVals
    rw [hcontains]
    simp
  refine ⟨?_, ?_, ?_, ?_⟩
  · intro hz
    rw [hpf, hcol, hz]
  · intro v hv
    rw [hpf, hcol, hv]
  · intro hlen
    cases hacc : acceptFrom [] vals with
    | nil => rw [hacc] at hlen; simp at hlen
    | cons v1 rest =>
      cases rest with
      | nil => rw [hacc] at hlen; simp at hlen
      | cons v2 rest2 => rw [hpf, hcol, hacc]
  · obtain ⟨ex, he, hs⟩ := acceptFrom_sublist vals []
    rw [he]
    simpa using hs

/-- Witness for C6: the list-preferred `name_servers` field over two
distinct name-server lines collapses to the two-element ordered list. -/
theorem C6_witness :
    ("name_servers" ∉ scalarPreferred)
    ∧ parseField noDateutil none false false "name_servers"
        [["ns1.example.com"], ["ns2.example.com"]]
      = Except.ok (FieldVal.fList [WVal.str "ns1.example.com", WVal.str "ns2.example.com"]) := by
  refine ⟨by decide, ?_⟩
  exact (C6_theorem noDateutil none false false "name_servers"
    [["ns1.example.com"], ["ns2.example.com"]]
    [WVal.str "ns1.example.com", WVal.str "ns2.example.com"]
    (by decide) (by rfl)).2.2.1 (by decide)

/-- C7: for every pattern in the explicit format table, formatting the known
instant with the pattern and normalizing the result with `cast_date` (for
any dateutil oracle and hint flags) succeeds and returns the same instant up
to the precision the pattern encodes: components the pattern carries come
back equal, the rest come back as strptime defaults, and any zone attached
to the result is the instant's zone. -/
theorem C7_theorem (dparse : String → Bool → Bool → Option PyDateTime) (df yf : Bool) :
    ∀ p ∈ KNOWN_FORMATS, ∃ r,
      cast_date dparse (strftime knownInstant p) df yf = Except.ok r
      ∧ roundTripAgrees knownInstant p r = true := by
  intro p hp
  have hall := roundtrip_all
  rw [List.all_eq_true] at hall
  have h := hall p hp
  rw [cast_date_eq_datetime_parse]
  unfold roundTripOK at h
  revert h
  cases hd : datetime_parse (strftime knownInstant p) with
  | ok r => intro h; exact ⟨r, rfl, h⟩
  | error e => intro h; exact absurd h (by simp)

/-- Witness for C7: the round trip through the first table entry. -/
theorem C7_witness :
    "%d-%b-%Y" ∈ KNOWN_FORMATS
    ∧ ∃ r, cast_date noDateutil (strftime knownInstant "%d-%b-%Y") false false
        = Except.ok r ∧ roundTripAgrees knownInstant "%d-%b-%Y" r = true :=
  ⟨by decide, C7_theorem noDateutil false false "%d-%b-%Y" (by decide)⟩

/-- C8: when the general parser raises and no pattern of the explicit table
matches, normalization fails with the unknown-date-format error carrying the
original text; the date is never silently dropped. -/
theorem C8_theorem (dparse : String → Bool → Bool → Option PyDateTime)
    (s : String) (df yf : Bool)
    (_hgen : dparse s df yf = none)
    (hfmt : ∀ f ∈ KNOWN_FORMATS, strptime f s = none) :
    cast_date dparse s df yf = Except.error ("Unknown date format: " ++ s) := by
  rw [cast_date_eq_datetime_parse]
  unfold datetime_parse
  rw [List.findSome?_eq_none_iff.mpr hfmt]

/-- Witness for C8: no format matches `not a date`, and `cast_date` raises
the error carrying that text. -/
theorem C8_witness :
    (∀ f ∈ KNOWN_FORMATS, strptime f "not a date" = none)
    ∧ cast_date noDateutil "not a date" false false
        = Except.error "Unknown date format: not a date" := by
  refine ⟨by decide, ?_⟩
  exact C8_theorem noDateutil "not a date" false false rfl (by decide)

/-- C9: for an attribute name that is neither found by normal lookup nor a
stored field key -- or one stored as `None` because the field was absent --
attribute access goes through `__getattr__`, returns `None`, and never
raises `AttributeError`; absent fields and arbitrary unknown names are
indistinguishable. -/
theorem C9_theorem (items : List (String × FieldVal)) (name : String)
    (hattr : name ∉ whoisEntryAttrNames)
    (hkey : items.lookup name = none ∨ items.lookup name = some FieldVal.fNone) :
    getattr_model items name = Except.ok (PyAttr.fieldVal FieldVal.fNone) := by
  unfold getattr_model dict_get
  rw [if_neg hattr]
  rcases hkey with h | h <;> rw [h]

/-- Witness for C9: an unknown name on an entry whose dict stores a real
field and an absent (`None`) field. -/
theorem C9_witness :
    getattr_model
        [("registrar", FieldVal.fScalar (WVal.str "Example Registrar")),
         ("status", FieldVal.fNone)] "creation_date"
      = Except.ok (PyAttr.fieldVal FieldVal.fNone) :=
  C9_theorem _ "creation_date" (by decide) (Or.inl rfl)

/-- C10: whenever the IDNA-encoded domain ends with `id` but not with
`-NORID`, `choose_server` returns the Indonesian registry host before any
TLD split and with zero network calls -- for any network oracle and any
domain, including ones whose TLD is not `id`. -/
theorem C10_theorem (net : String → Except String String) (idna : String → String)
    (domain : String)
    (hnorid : pyEndsWith (idna domain) "-NORID" = false)
    (hid : pyEndsWith (idna domain) "id" = true) :
    choose_server net idna domain = Except.ok (some PANDIHOST, 0) := by
  simp [choose_server, hnorid, hid]

/-- Witness for C10: `foo.madrid` (TLD `madrid`, not `id`) is sent to
whois.pandi.or.id with zero network calls, on a dead network oracle. -/
theorem C10_witness :
    choose_server ianaDead (fun s => s) "foo.madrid"
      = Except.ok (some "whois.pandi.or.id", 0) :=
  C10_theorem ianaDead (fun s => s) "foo.madrid" (by decide) (by decide)
